import Mathlib

/-!
Shallow embedding of `src/main.rs` of the almanac-collate program.

The program reads lines of the form
  $KEYWORD,satid,length,hexpayload*hexchecksum
tokenizes them, validates an XOR checksum, decodes constellation-specific
binary layouts, and merges records per satellite id keeping the newest.

Modelling conventions:
* Rust `&str` values are `List Char`; `str::bytes()` is modelled by UTF-8
  encoding each character (`utf8Bytes`), which agrees with Rust's bytes.
* Machine integers are `Nat`/`Int`.  `u16::checked_shl(k).unwrap_or(0)` is
  `shlU16`, returning `0` when the shift amount is ≥ 16 and otherwise the
  wrapped shift modulo 2^16 (likewise `shlU32`).
* Fallible Rust operations that return `Result`/`Option` are `Option`/`Except`;
  operations that panic (`expect`, out-of-bounds indexing/slicing) surface as
  the `LineResult.panic` outcome, which aborts a whole run (`Option.none`).
* `HashMap<u16, SatRec>` is a `List (Nat × SatRec)` whose order stands for the
  map's (unspecified) iteration order; `insert` after `remove` appends.
-/

/-- Record type tag, mirroring Rust `enum RecType` with its `Undefined`
default. -/
inductive RecType where
  | undefined
  | almanac
  | ephemeris
deriving DecidableEq, Repr

/-- Mirror of the Rust `SatRec` struct (`Default` gives zeroes, `Undefined`,
empty string). -/
structure SatRec where
  satid : Nat
  week : Nat
  toa : Nat
  toe : Nat
  toc : Nat
  rec_type : RecType
  nmea : List Char
deriving DecidableEq, Repr

/-- The `Default::default()` SatRec. -/
def SatRec.dflt : SatRec :=
  { satid := 0, week := 0, toa := 0, toe := 0, toc := 0,
    rec_type := RecType.undefined, nmea := [] }

/-- Classified per-line errors actually returned by `process_line`
(`Err(...)` strings in the source).  Note there is no hex-decode error:
hex decoding in the source panics on failure. -/
inductive LineErr where
  | malformedLine      -- "malformed line"
  | unknownRecord      -- "unknown record"
  | noSatId            -- "No sat id found"
  | noLength           -- "No length found"
  | checksumFailed     -- "cehcksum failed"
  | incorrectLength    -- "incorrect length"
deriving DecidableEq, Repr

deriving instance DecidableEq for Except

/-- Outcome of processing one line: success, a recoverable classified error,
or a panic (Rust `expect`/out-of-bounds), which aborts the whole run. -/
inductive LineResult where
  | ok (s : SatRec)
  | err (e : LineErr)
  | panic
deriving DecidableEq, Repr

/-! ### String utilities (Rust semantics) -/

/-- Helper for `splitOn`: accumulates the current field (reversed). -/
def splitOnAux (sep : Char) : List Char → List Char → List (List Char)
  | [], acc => [acc.reverse]
  | c :: cs, acc =>
      if c = sep then acc.reverse :: splitOnAux sep cs []
      else splitOnAux sep cs (c :: acc)

/-- Rust `str::split(sep)` collected to a vector: always at least one field,
empty fields between adjacent separators. -/
def splitOn (sep : Char) (s : List Char) : List (List Char) :=
  splitOnAux sep s []

/-- UTF-8 encoding of one character, as Rust `str::bytes()` would yield. -/
def utf8Bytes (c : Char) : List Nat :=
  let n := c.toNat
  if n < 128 then [n]
  else if n < 2048 then [192 + n / 64, 128 + n % 64]
  else if n < 65536 then [224 + n / 4096, 128 + (n / 64) % 64, 128 + n % 64]
  else [240 + n / 262144, 128 + (n / 4096) % 64, 128 + (n / 64) % 64,
        128 + n % 64]

/-- The bytes of a string, Rust `str::bytes()`. -/
def strBytes (cs : List Char) : List Nat := (cs.map utf8Bytes).flatten

/-- XOR fold of a byte list starting from 0 (the `checksum ^= c` loop). -/
def xorFold (bs : List Nat) : Nat := bs.foldl (fun a b => Nat.xor a b) 0

/-- Decimal digit value of a character, if any. -/
def digitVal (c : Char) : Option Nat :=
  if '0' ≤ c ∧ c ≤ '9' then some (c.toNat - 48) else none

/-- Parse a non-empty all-digit string to its value. -/
def parseDigits : List Char → Option Nat
  | [] => none
  | [c] => digitVal c
  | c :: cs =>
      match digitVal c, parseDigits cs with
      | some d, some v => some (d * 10 ^ cs.length + v)
      | _, _ => none

/-- Rust `str::parse::<u16>()`: optional sign, digits, u16 range check
("-0" parses to 0, other negatives overflow). -/
def parseU16 (s : List Char) : Option Nat :=
  match s with
  | '+' :: rest =>
      match parseDigits rest with
      | some v => if v ≤ 65535 then some v else none
      | none => none
  | '-' :: rest =>
      match parseDigits rest with
      | some v => if v = 0 then some 0 else none
      | none => none
  | _ =>
      match parseDigits s with
      | some v => if v ≤ 65535 then some v else none
      | none => none

/-- Rust `str::parse::<i32>()`: optional sign, digits, i32 range check. -/
def parseI32 (s : List Char) : Option Int :=
  match s with
  | '+' :: rest =>
      match parseDigits rest with
      | some v => if v ≤ 2147483647 then some (Int.ofNat v) else none
      | none => none
  | '-' :: rest =>
      match parseDigits rest with
      | some v => if v ≤ 2147483648 then some (-(Int.ofNat v)) else none
      | none => none
  | _ =>
      match parseDigits s with
      | some v => if v ≤ 2147483647 then some (Int.ofNat v) else none
      | none => none

/-- Hex digit value as in the `hex` crate (0-9, a-f, A-F). -/
def hexVal (c : Char) : Option Nat :=
  if '0' ≤ c ∧ c ≤ '9' then some (c.toNat - 48)
  else if 'a' ≤ c ∧ c ≤ 'f' then some (c.toNat - 87)
  else if 'A' ≤ c ∧ c ≤ 'F' then some (c.toNat - 55)
  else none

/-- `hex::decode`: even length, valid hex digits, big-endian byte pairs. -/
def hexDecode : List Char → Option (List Nat)
  | [] => some []
  | [_] => none
  | h :: l :: rest =>
      match hexVal h, hexVal l, hexDecode rest with
      | some a, some b, some tl => some ((16 * a + b) :: tl)
      | _, _, _ => none

/-! ### Binary layout structs and fill functions (source lines 31–146) -/

structure GpsAlmanac where
  satid : Nat
  week : Nat
  toa : Nat
  rem : List Nat
deriving DecidableEq, Repr

structure GpsEphemeris where
  week : Nat
  toe : Nat
  toc : Nat
  rem : List Nat
deriving DecidableEq, Repr

structure GlonassAlmanac where
  satid : Nat
  week : Nat
  toa : Nat
  rem : List Nat
deriving DecidableEq, Repr

structure GlonassEphemeris where
  week : Nat
  toe : Nat
  rem : List Nat
deriving DecidableEq, Repr

structure GalileoAlmanac where
  satid : Nat
  svid : Nat
  week : Nat
  toa : Nat
  rem : List Nat
deriving DecidableEq, Repr

/-- `u16::checked_shl(k).unwrap_or(0)`: 0 when the shift amount is ≥ 16,
otherwise the shifted value wrapped to 16 bits. -/
def shlU16 (x k : Nat) : Nat := if k < 16 then x * 2 ^ k % 65536 else 0

/-- `u32::checked_shl(k).unwrap_or(0)`. -/
def shlU32 (x k : Nat) : Nat := if k < 32 then x * 2 ^ k % 4294967296 else 0

/-- `fill_gps_almanac`; `none` models the index-out-of-bounds panic when the
payload is shorter than 4 bytes.  `rem` is `bytes[4..]`. -/
def fill_gps_almanac : List Nat → Option GpsAlmanac
  | b0 :: b1 :: b2 :: b3 :: rest =>
      some { satid := b0, week := shlU16 b2 8 + b1, toa := b3, rem := rest }
  | _ => none

/-- `fill_gps_ephemeris`; note `rem` is `bytes[5..]` in the source, one byte
before the end of the `toc` field (bytes 4–5). -/
def fill_gps_ephemeris : List Nat → Option GpsEphemeris
  | b0 :: b1 :: b2 :: b3 :: b4 :: b5 :: rest =>
      some { week := shlU16 b1 8 + b0, toe := shlU16 b3 8 + b2,
             toc := shlU16 b5 8 + b4, rem := b5 :: rest }
  | _ => none

/-- `fill_glonass_alamanc` (sic). `rem` is `bytes[4..]`. -/
def fill_glonass_alamanc : List Nat → Option GlonassAlmanac
  | b0 :: b1 :: b2 :: b3 :: rest =>
      some { satid := b0, week := shlU16 b2 8 + b1, toa := b3, rem := rest }
  | _ => none

/-- `fill_glonass_ephemeris`. `rem` is `bytes[5..]`. -/
def fill_glonass_ephemeris : List Nat → Option GlonassEphemeris
  | b0 :: b1 :: b2 :: b3 :: b4 :: rest =>
      some { week := shlU16 b1 8 + b0,
             toe := shlU32 b3 12 + shlU32 b2 4 + b4, rem := rest }
  | _ => none

/-- `fill_galileo_almanac`. `rem` is `bytes[6..]`. -/
def fill_galileo_almanac : List Nat → Option GalileoAlmanac
  | b0 :: b1 :: b2 :: b3 :: b4 :: b5 :: rest =>
      some { satid := shlU16 b1 8 + b0, svid := b2,
             week := shlU16 b4 8 + b3, toa := b5, rem := rest }
  | _ => none

/-! ### Checksum and line processing (source lines 148–256) -/

/-- `check_checksum`: XOR-fold the bytes of `chars` and compare with `sum`. -/
def check_checksum (chars : List Char) (sum : Nat) : Except String Nat :=
  let checksum := xorFold (strBytes chars)
  if checksum = sum then Except.ok sum
  else Except.error "checksum failed"

/-- The almanac keyword literal. -/
def almanacKw : List Char := "$PSTMALMANAC".data

/-- The ephemeris keyword literal. -/
def ephemKw : List Char := "$PSTMEPHEM".data

/-- The constellation/kind dispatch of `process_line` (source lines 206–251):
given the record type, outer satellite id, declared length and decoded payload
bytes, build the field-filled `SatRec` (with empty `nmea`, set by the caller).
`panic` models the fill functions indexing past the payload. -/
def decodeRecord (rt : RecType) (satid : Nat) (len : Int) (bytes : List Nat) :
    LineResult :=
  let sat0 : SatRec := { SatRec.dflt with rec_type := rt }
  if rt = RecType.almanac then
    if len ≠ 40 then LineResult.err LineErr.incorrectLength
    else if satid ≤ 32 then
      match fill_gps_almanac bytes with
      | none => LineResult.panic
      | some g => LineResult.ok
          { sat0 with satid := g.satid, week := g.week, toa := g.toa }
    else if 33 ≤ satid ∧ satid ≤ 96 then
      match fill_glonass_alamanc bytes with
      | none => LineResult.panic
      | some g => LineResult.ok
          { sat0 with satid := g.satid, week := g.week, toa := g.toa }
    else if 301 ≤ satid ∧ satid ≤ 336 then
      match fill_galileo_almanac bytes with
      | none => LineResult.panic
      | some g => LineResult.ok
          { sat0 with satid := g.satid, week := g.week, toa := g.toa }
    else LineResult.ok sat0
  else if rt = RecType.ephemeris then
    if len ≠ 64 then LineResult.err LineErr.incorrectLength
    else if satid ≤ 32 then
      match fill_gps_ephemeris bytes with
      | none => LineResult.panic
      | some g => LineResult.ok
          { sat0 with satid := satid, week := g.week, toc := g.toc,
                      toe := g.toe }
    else if 33 ≤ satid ∧ satid ≤ 96 then
      match fill_glonass_ephemeris bytes with
      | none => LineResult.panic
      | some g => LineResult.ok
          { sat0 with satid := satid, week := g.week, toe := g.toe }
    else LineResult.ok sat0
  else LineResult.ok sat0

/-- `process_line` (source lines 163–256).  Follows the source's order of
operations exactly; `panic` arises from `expect` on hex decoding, from
indexing `record[1]`/`sum[0]` and from slicing `&chars[0][1..]` on an empty
first segment, as well as from short payloads inside the fill functions. -/
def processLine (line : List Char) : LineResult :=
  match splitOn ',' line with
  | [f0, f1, f2, f3] =>
      let rt : RecType :=
        if f0 = almanacKw then RecType.almanac
        else if f0 = ephemKw then RecType.ephemeris
        else RecType.undefined
      if rt = RecType.undefined then LineResult.err LineErr.unknownRecord
      else
        match parseU16 f1 with
        | none => LineResult.err LineErr.noSatId
        | some satid =>
          match parseI32 f2 with
          | none => LineResult.err LineErr.noLength
          | some len =>
            let record := splitOn '*' f3
            match record.get? 1 with
            | none => LineResult.panic
            | some r1 =>
              match hexDecode r1 with
              | none => LineResult.panic
              | some sum =>
                match record.get? 0 with
                | none => LineResult.panic
                | some r0 =>
                  match hexDecode r0 with
                  | none => LineResult.panic
                  | some bytes =>
                    let chars := splitOn '*' line
                    match sum.get? 0 with
                    | none => LineResult.panic
                    | some s0 =>
                      match chars.get? 0 with
                      | none => LineResult.panic
                      | some c0 =>
                        match c0 with
                        | [] => LineResult.panic
                        | _ :: c0tl =>
                          match check_checksum c0tl s0 with
                          | Except.error _ =>
                              LineResult.err LineErr.checksumFailed
                          | Except.ok _ =>
                            match decodeRecord rt satid len bytes with
                            | LineResult.ok sat =>
                                LineResult.ok { sat with nmea := line }
                            | r => r
  | _ => LineResult.err LineErr.malformedLine

/-! ### Freshness comparators (source lines 258–329) -/

/-- `compare_almanac_date`: lexicographic on (week, toa), signed outcome. -/
def compare_almanac_date (rec1 rec2 : SatRec) : Except String Int :=
  if rec1.rec_type ≠ rec2.rec_type then
    Except.error "can't compare different types"
  else if rec1.week > rec2.week then Except.ok 1
  else if rec1.week < rec2.week then Except.ok (-1)
  else if rec1.toa > rec2.toa then Except.ok 2
  else if rec1.toa < rec2.toa then Except.ok (-2)
  else Except.ok 0

/-- `compare_ephemeris_date`: lexicographic on (week, toe, toc). -/
def compare_ephemeris_date (rec1 rec2 : SatRec) : Except String Int :=
  if rec1.rec_type ≠ rec2.rec_type then
    Except.error "can't compare different types"
  else if rec1.week > rec2.week then Except.ok 1
  else if rec1.week < rec2.week then Except.ok (-1)
  else if rec1.toe > rec2.toe then Except.ok 2
  else if rec1.toe < rec2.toe then Except.ok (-2)
  else if rec1.toc > rec2.toc then Except.ok 3
  else if rec1.toc < rec2.toc then Except.ok (-3)
  else Except.ok 0

/-- `compare_date`: dispatch on record type; `Undefined` yields an error. -/
def compare_date (rec1 rec2 : SatRec) : Except String Int :=
  if rec1.rec_type ≠ rec2.rec_type then
    Except.error "can't compare different types"
  else if rec1.rec_type = RecType.almanac then compare_almanac_date rec1 rec2
  else if rec1.rec_type = RecType.ephemeris then
    compare_ephemeris_date rec1 rec2
  else Except.error "Invalid date type"

/-- "A is newer than B": the comparator returns a strictly positive value,
exactly the `cmp > 0` test `process_file` uses to replace a stored record. -/
def newerThan (a b : SatRec) : Prop :=
  ∃ v : Int, compare_date a b = Except.ok v ∧ 0 < v

instance (a b : SatRec) : Decidable (newerThan a b) := by
  unfold newerThan
  cases compare_date a b with
  | error e => exact Decidable.isFalse (by simp)
  | ok v => exact decidable_of_iff (0 < v) (by simp)

/-! ### Satellite registry (source lines 331–378) -/

/-- The `HashMap<u16, SatRec>` contents; list order models the map's
(unspecified) iteration order, here insertion order. -/
abbrev Registry := List (Nat × SatRec)

/-- `sats.get(&k)` (also `contains_key` via `isSome`). -/
def getKey (k : Nat) (sats : Registry) : Option SatRec :=
  (sats.find? (fun p => p.1 = k)).map (fun p => p.2)

/-- `sats.remove(&k)`. -/
def removeKey (k : Nat) (sats : Registry) : Registry :=
  sats.filter (fun p => p.1 ≠ k)

/-- The loop body of `process_file` after a successful `process_line`
(source lines 351–377): drop id 0, insert new ids, otherwise compare and
replace only when strictly newer; a comparator error skips the candidate. -/
def offer (sats : Registry) (sat : SatRec) : Registry :=
  if sat.satid = 0 then sats
  else
    match getKey sat.satid sats with
    | none => sats ++ [(sat.satid, sat)]
    | some old_sat =>
        match compare_date sat old_sat with
        | Except.error _ => sats
        | Except.ok cmp =>
            if cmp > 0 then removeKey sat.satid sats ++ [(sat.satid, sat)]
            else sats

/-- The per-line loop of `process_file`: classified errors skip the line,
a panic aborts the run (`none`). -/
def processLines : List (List Char) → Registry → Option Registry
  | [], sats => some sats
  | l :: rest, sats =>
      match processLine l with
      | LineResult.panic => none
      | LineResult.err _ => processLines rest sats
      | LineResult.ok sat => processLines rest (offer sats sat)

/-- `process_file` on the file's text: split on newlines, process each line. -/
def processFileContents (contents : List Char) (sats : Registry) :
    Option Registry :=
  processLines (splitOn '\n' contents) sats

/-- The two `process_file` calls of `main`, starting from the empty map. -/
def runFiles (c1 c2 : List Char) : Option Registry :=
  match processFileContents c1 [] with
  | none => none
  | some sats => processFileContents c2 sats

/-- The ordering `main` sorts the collected entries by:
`a.1.satid.cmp(&b.1.satid)` on the record's satid field. -/
def satidLe (a b : Nat × SatRec) : Prop := a.2.satid ≤ b.2.satid

instance : DecidableRel satidLe := fun a b => Nat.decLe a.2.satid b.2.satid

instance : IsTotal (Nat × SatRec) satidLe :=
  ⟨fun a b => Nat.le_total a.2.satid b.2.satid⟩

instance : IsTrans (Nat × SatRec) satidLe :=
  ⟨fun _ _ _ h1 h2 => Nat.le_trans h1 h2⟩

/-- `sorted_sats`: the registry's entries sorted ascending by record satid
(a stable sort, as Rust's `sort_by`). -/
def sortedSats (sats : Registry) : Registry := List.insertionSort satidLe sats

/-- Output written when a third argument names an output file: the sorted
records' `nmea` texts (source lines 395–400). -/
def fileOutput (sats : Registry) : List (List Char) :=
  (sortedSats sats).map (fun p => p.2.nmea)

/-- Output printed when no output file is given: `for (_, sat) in sats`
iterates the **unsorted** hash map (source lines 401–404); the model's
iteration order is insertion order. -/
def stdoutRecords (sats : Registry) : List SatRec :=
  sats.map (fun p => p.2)

/-! ### Concrete sentences used as witnesses and counterexamples -/

/-- GPS almanac, outer id 5, payload byte0 = 5, week 100, toa 0. -/
def lineA : List Char :=
  "$PSTMALMANAC,5,40,05640000000000000000000000000000000000000000000000000000000000000000000000000000*4D".data

/-- GPS almanac, outer id 5, payload byte0 = 5, week 101, toa 0. -/
def lineB : List Char :=
  "$PSTMALMANAC,5,40,05650000000000000000000000000000000000000000000000000000000000000000000000000000*4C".data

/-- GPS almanac, id 7, week 0. -/
def lineC : List Char :=
  "$PSTMALMANAC,7,40,07000000000000000000000000000000000000000000000000000000000000000000000000000000*4F".data

/-- GPS almanac, id 3, week 0. -/
def lineD : List Char :=
  "$PSTMALMANAC,3,40,03000000000000000000000000000000000000000000000000000000000000000000000000000000*4F".data

/-- Galileo-range ephemeris, outer id 310, declared length 64, valid
checksum. -/
def lineE : List Char :=
  "$PSTMEPHEM,310,64,AB000000000000000000000000000000000000000000000000000000000000000000000000000000000000000000000000000000000000000000000000000000*50".data

/-- GPS almanac, outer id 9, but inner payload id byte0 = 0. -/
def lineZ : List Char :=
  "$PSTMALMANAC,9,40,00000000000000000000000000000000000000000000000000000000000000000000000000000000*46".data

/-- A line whose hex payload field is not valid hexadecimal. -/
def lineBadHex : List Char := "$PSTMALMANAC,5,40,zz*00".data

/-- `lineA` with its checksum byte deliberately flipped. -/
def lineBadSum : List Char :=
  "$PSTMALMANAC,5,40,05640000000000000000000000000000000000000000000000000000000000000000000000000000*4E".data

/-! ### Helper records built from the concrete lines -/

/-- The record `process_line` produces for `lineA`. -/
def recA : SatRec :=
  { satid := 5, week := 100, toa := 0, toe := 0, toc := 0,
    rec_type := RecType.almanac, nmea := lineA }

/-- The record `process_line` produces for `lineB`. -/
def recB : SatRec :=
  { satid := 5, week := 101, toa := 0, toe := 0, toc := 0,
    rec_type := RecType.almanac, nmea := lineB }

/-- The zero-id record `process_line` produces for `lineE`. -/
def recE : SatRec :=
  { satid := 0, week := 0, toa := 0, toe := 0, toc := 0,
    rec_type := RecType.ephemeris, nmea := lineE }

/-! ### Comparator characterizations (helpers) -/

theorem newerThan_almanac_iff (a b : SatRec) (hk : a.rec_type = b.rec_type)
    (ha : a.rec_type = RecType.almanac) :
    newerThan a b ↔ (b.week < a.week ∨ (a.week = b.week ∧ b.toa < a.toa)) := by
  unfold newerThan compare_date compare_almanac_date
  rw [if_neg (by simp [hk]), if_pos ha, if_neg (by simp [hk])]
  split_ifs <;> simp <;> omega

theorem newerThan_ephemeris_iff (a b : SatRec) (hk : a.rec_type = b.rec_type)
    (ha : a.rec_type = RecType.ephemeris) :
    newerThan a b ↔
      (b.week < a.week ∨ (a.week = b.week ∧ b.toe < a.toe) ∨
       (a.week = b.week ∧ a.toe = b.toe ∧ b.toc < a.toc)) := by
  unfold newerThan compare_date compare_ephemeris_date
  rw [if_neg (by simp [hk]), if_neg (by simp [ha]), if_pos ha,
    if_neg (by simp [hk])]
  split_ifs <;> simp <;> omega

theorem compare_date_self (a : SatRec) (h : a.rec_type ≠ RecType.undefined) :
    compare_date a a = Except.ok 0 := by
  unfold compare_date compare_almanac_date compare_ephemeris_date
  cases ha : a.rec_type <;> simp_all

/-! ### C5 -/

/-- C5: within a fixed record kind (almanac or ephemeris), the freshness
comparator is transitive on "newer" and every record compares equal (`Ok 0`)
to itself. -/
theorem C5_comparator_strict_weak_order (A B C : SatRec)
    (hAB : A.rec_type = B.rec_type) (hBC : B.rec_type = C.rec_type)
    (hk : A.rec_type ≠ RecType.undefined) :
    (newerThan A B → newerThan B C → newerThan A C) ∧
    compare_date A A = Except.ok 0 := by
  refine ⟨?_, compare_date_self A hk⟩
  intro h1 h2
  cases ha : A.rec_type with
  | undefined => exact absurd ha hk
  | almanac =>
      rw [newerThan_almanac_iff A B hAB ha] at h1
      rw [newerThan_almanac_iff B C hBC (hAB ▸ ha)] at h2
      rw [newerThan_almanac_iff A C (hAB.trans hBC) ha]
      omega
  | ephemeris =>
      rw [newerThan_ephemeris_iff A B hAB ha] at h1
      rw [newerThan_ephemeris_iff B C hBC (hAB ▸ ha)] at h2
      rw [newerThan_ephemeris_iff A C (hAB.trans hBC) ha]
      omega

/-- Witness for C5 at three concrete almanac records with weeks 3 > 2 > 1. -/
theorem C5_comparator_strict_weak_order_witness :
    newerThan { SatRec.dflt with rec_type := RecType.almanac, week := 3 }
      { SatRec.dflt with rec_type := RecType.almanac, week := 1 } ∧
    compare_date { SatRec.dflt with rec_type := RecType.almanac, week := 3 }
      { SatRec.dflt with rec_type := RecType.almanac, week := 3 } =
      Except.ok 0 := by
  have h := C5_comparator_strict_weak_order
    { SatRec.dflt with rec_type := RecType.almanac, week := 3 }
    { SatRec.dflt with rec_type := RecType.almanac, week := 2 }
    { SatRec.dflt with rec_type := RecType.almanac, week := 1 }
    rfl rfl (by decide)
  exact ⟨h.1 (by decide) (by decide), h.2⟩

/-! ### Registry invariant (helpers) -/

/-- Invariant of the satellite registry: every entry's key is its record's
satid, no entry has satid 0, and keys are pairwise distinct. -/
def RegInv (sats : Registry) : Prop :=
  (∀ p ∈ sats, p.1 = p.2.satid ∧ p.2.satid ≠ 0) ∧
  sats.Pairwise (fun a b => a.1 ≠ b.1)

theorem regInv_nil : RegInv [] := ⟨by simp, List.Pairwise.nil⟩

theorem regInv_offer {sats : Registry} (h : RegInv sats) (sat : SatRec) :
    RegInv (offer sats sat) := by
  unfold offer
  split_ifs with h0
  · exact h
  · cases hget : getKey sat.satid sats with
    | none =>
        have hnone : ∀ p ∈ sats, p.1 ≠ sat.satid := by
          intro p hp
          have := List.find?_eq_none.mp (by
            unfold getKey at hget
            cases hfind : List.find? (fun p => p.1 = sat.satid) sats with
            | none => rfl
            | some q => rw [hfind] at hget; simp at hget) p hp
          simpa using this
        refine ⟨?_, ?_⟩
        · intro p hp
          rcases List.mem_append.mp hp with hmem | hmem
          · exact h.1 p hmem
          · simp at hmem
            subst hmem
            exact ⟨rfl, h0⟩
        · rw [List.pairwise_append]
          refine ⟨h.2, List.pairwise_singleton _ _, ?_⟩
          intro a ha b hb
          simp at hb
          subst hb
          exact hnone a ha
    | some old_sat =>
        dsimp only
        cases hc : compare_date sat old_sat with
        | error e => exact h
        | ok cmp =>
            dsimp only
            split_ifs with hcmp
            · have hfilter : ∀ p ∈ removeKey sat.satid sats, p.1 ≠ sat.satid := by
                intro p hp
                have := (List.mem_filter.mp hp).2
                simpa using this
              refine ⟨?_, ?_⟩
              · intro p hp
                rcases List.mem_append.mp hp with hmem | hmem
                · exact h.1 p (List.mem_filter.mp hmem).1
                · simp at hmem
                  subst hmem
                  exact ⟨rfl, h0⟩
              · rw [List.pairwise_append]
                refine ⟨List.Pairwise.filter _ h.2, List.pairwise_singleton _ _, ?_⟩
                intro a ha b hb
                simp at hb
                subst hb
                exact hfilter a ha
            · exact h

theorem regInv_processLines :
    ∀ (lines : List (List Char)) (sats reg : Registry),
      RegInv sats → processLines lines sats = some reg → RegInv reg := by
  intro lines
  induction lines with
  | nil =>
      intro sats reg h hrun
      unfold processLines at hrun
      obtain rfl : sats = reg := by simpa using hrun
      exact h
  | cons l rest ih =>
      intro sats reg h hrun
      unfold processLines at hrun
      cases hl : processLine l with
      | panic => rw [hl] at hrun; exact absurd hrun (by simp)
      | err e => rw [hl] at hrun; exact ih sats reg h hrun
      | ok sat => rw [hl] at hrun; exact ih (offer sats sat) reg (regInv_offer h sat) hrun

theorem regInv_runFiles {c1 c2 : List Char} {reg : Registry}
    (h : runFiles c1 c2 = some reg) : RegInv reg := by
  unfold runFiles at h
  cases h1 : processFileContents c1 [] with
  | none => rw [h1] at h; exact absurd h (by simp)
  | some s =>
      rw [h1] at h
      exact regInv_processLines _ s reg
        (regInv_processLines _ [] s regInv_nil h1) h

/-! ### C9 -/

/-- C9: whenever the run completes, no entry of the final registry — and
hence no record of either output form — has satellite id 0; the guard in
`process_file` drops zero-id records, including almanac records whose inner
payload id bytes are zero despite a nonzero outer id. -/
theorem C9_no_zero_id_in_registry (c1 c2 : List Char) (reg : Registry)
    (h : runFiles c1 c2 = some reg) :
    (∀ p ∈ reg, p.1 ≠ 0 ∧ p.2.satid ≠ 0) ∧
    (∀ p ∈ sortedSats reg, p.2.satid ≠ 0) ∧
    (∀ r ∈ stdoutRecords reg, r.satid ≠ 0) := by
  have inv := regInv_runFiles h
  have hmem : ∀ p ∈ reg, p.1 ≠ 0 ∧ p.2.satid ≠ 0 := by
    intro p hp
    have := inv.1 p hp
    exact ⟨this.1 ▸ this.2, this.2⟩
  refine ⟨hmem, ?_, ?_⟩
  · intro p hp
    exact (hmem p ((List.perm_insertionSort satidLe reg).mem_iff.mp hp)).2
  · intro r hr
    obtain ⟨p, hp, rfl⟩ := List.mem_map.mp hr
    exact (hmem p hp).2

/-- Witness for C9: processing a file whose first line is an almanac with
outer id 9 but inner payload id 0 (`lineZ`, filtered out) followed by
`lineA` leaves exactly the id-5 record, which is nonzero. -/
theorem C9_no_zero_id_in_registry_witness :
    (5, recA).1 ≠ 0 ∧ (5, recA).2.satid ≠ 0 :=
  (C9_no_zero_id_in_registry lineZ lineA [(5, recA)] (by decide)).1
    (5, recA) (by decide)

/-! ### C4 -/

/-- Counterexample to C4: with no output file, `main` iterates the hash map
itself (source line 402) without sorting; processing files whose lines carry
ids 7 then 3 yields stdout records in the map's iteration order [7, 3],
which is not ascending. -/
theorem C4_stdout_not_sorted_counterexample :
    (runFiles lineC lineD).isSome = true ∧
    ((stdoutRecords ((runFiles lineC lineD).getD [])).map SatRec.satid)
      = [7, 3] ∧
    ¬ List.Sorted (fun a b => a < b)
      ((stdoutRecords ((runFiles lineC lineD).getD [])).map SatRec.satid) := by
  refine ⟨by decide, by decide, ?_⟩
  intro hs
  rw [(by decide :
    ((stdoutRecords ((runFiles lineC lineD).getD [])).map SatRec.satid)
      = [7, 3])] at hs
  exact absurd hs (by decide)

/-- C4 as amended: when an output file is given, the emitted sequence is the
registry sorted strictly ascending by satellite id with no duplicate ids;
the no-output-file stdout path prints in the hash map's unspecified
iteration order and is not necessarily sorted. -/
theorem C4_file_output_sorted (c1 c2 : List Char) (reg : Registry)
    (h : runFiles c1 c2 = some reg) :
    List.Sorted (fun a b => a < b)
      ((sortedSats reg).map (fun p => p.2.satid)) := by
  have inv := regInv_runFiles h
  have hne : reg.Pairwise (fun a b => a.2.satid ≠ b.2.satid) := by
    refine inv.2.imp_of_mem ?_
    intro a b ha hb hkey
    rw [(inv.1 a ha).1, (inv.1 b hb).1] at hkey
    exact hkey
  have hne' : (sortedSats reg).Pairwise
      (fun a b => a.2.satid ≠ b.2.satid) :=
    (List.Perm.pairwise_iff (fun hxy e => hxy e.symm)
      (List.perm_insertionSort satidLe reg)).mpr hne
  have hle : (sortedSats reg).Pairwise satidLe :=
    List.sorted_insertionSort satidLe reg
  have hlt : (sortedSats reg).Pairwise
      (fun a b => a.2.satid < b.2.satid) :=
    (hle.and hne').imp (fun hp => Nat.lt_of_le_of_ne hp.1 hp.2)
  exact List.pairwise_map.mpr hlt

/-- Witness for C4's amended theorem at the concrete id-7/id-3 input pair. -/
theorem C4_file_output_sorted_witness :
    List.Sorted (fun a b => a < b)
      ((sortedSats ((runFiles lineC lineD).getD [])).map
        (fun p => p.2.satid)) :=
  C4_file_output_sorted lineC lineD ((runFiles lineC lineD).getD [])
    (by decide)

/-! ### C3 -/

/-- C3: the week-100 and week-101 GPS almanac sentences for satellite id 5
leave the week-101 record in the registry whichever file order is used; in
general, when an id is already stored, the candidate replaces it exactly
when the comparator is strictly positive and otherwise the stored record is
kept. -/
theorem C3_newest_record_wins :
    (runFiles lineA lineB = some [(5, recB)] ∧
     runFiles lineB lineA = some [(5, recB)] ∧
     processLine lineA = LineResult.ok recA ∧ recA.week = 100 ∧
     processLine lineB = LineResult.ok recB ∧ recB.week = 101) ∧
    (∀ (sats : Registry) (sat old_sat : SatRec) (c : Int),
      sat.satid ≠ 0 → getKey sat.satid sats = some old_sat →
      compare_date sat old_sat = Except.ok c →
      offer sats sat =
        if c > 0 then removeKey sat.satid sats ++ [(sat.satid, sat)]
        else sats) := by
  refine ⟨by decide, ?_⟩
  intro sats sat old_sat c h0 hget hc
  unfold offer
  rw [if_neg h0, hget]
  dsimp only
  rw [hc]

/-- Witness for C3's general replace/keep rule: offering the week-101 record
against a registry holding the week-100 record replaces it. -/
theorem C3_newest_record_wins_witness :
    offer [(5, recA)] recB =
      if (1 : Int) > 0 then
        removeKey recB.satid [(5, recA)] ++ [(recB.satid, recB)]
      else [(5, recA)] :=
  C3_newest_record_wins.2 [(5, recA)] recB recA 1 (by decide) (by decide)
    (by decide)

/-! ### C10 -/

/-- C10: an ephemeris record whose outer id is in the Galileo range 301–336
(declared length 64) hits no decode branch: the produced record keeps the
default satellite id 0, and offering it to the registry is a no-op, so
Galileo ephemeris data never reaches the output; `lineE` (outer id 310) is
a checksum-valid concrete instance. -/
theorem C10_galileo_ephemeris_never_output (satid : Nat) (bytes : List Nat)
    (sats : Registry) (h1 : 301 ≤ satid) (h2 : satid ≤ 336) :
    decodeRecord RecType.ephemeris satid 64 bytes =
      LineResult.ok { SatRec.dflt with rec_type := RecType.ephemeris } ∧
    offer sats { SatRec.dflt with rec_type := RecType.ephemeris } = sats ∧
    processLine lineE = LineResult.ok recE ∧
    offer sats recE = sats := by
  have ha : ¬ satid ≤ 32 := by omega
  have hb : ¬ (33 ≤ satid ∧ satid ≤ 96) := by omega
  refine ⟨?_, ?_, by decide, ?_⟩
  · simp [decodeRecord, ha, hb]
  · unfold offer
    rw [if_pos (show
      ({ SatRec.dflt with rec_type := RecType.ephemeris } : SatRec).satid = 0
      from rfl)]
  · unfold offer
    rw [if_pos (show recE.satid = 0 from rfl)]

/-- Witness for C10 at outer id 310 with an arbitrary 0-byte payload and an
empty registry. -/
theorem C10_galileo_ephemeris_never_output_witness :
    decodeRecord RecType.ephemeris 310 64 [] =
      LineResult.ok { SatRec.dflt with rec_type := RecType.ephemeris } ∧
    offer [] { SatRec.dflt with rec_type := RecType.ephemeris } = [] ∧
    processLine lineE = LineResult.ok recE ∧
    offer [] recE = [] :=
  C10_galileo_ephemeris_never_output 310 [] [] (by decide) (by decide)

/-! ### C1 -/

/-- A line whose hex checksum field is not valid hexadecimal. -/
def lineBadSumHex : List Char := "$PSTMALMANAC,5,40,0564*gg".data

/-- Counterexample to C1 as stated: a line whose payload is not valid hex
panics (`expect` in the source) instead of failing with a recoverable
HexDecodeError, and the whole run aborts rather than continuing with the
next line. -/
theorem C1_hex_failure_aborts_counterexample :
    processLine lineBadHex = LineResult.panic ∧
    processLines [lineBadHex, lineA] [] = none :=
  ⟨by decide, by decide⟩

/-- C1 as amended: line processing is total with three outcomes; every
classified error is recoverable (the line is skipped and processing
continues), but a hex-decode failure of the payload or of the checksum field
is a panic that aborts the run instead of a classified error. -/
theorem C1_per_line_error_recovery :
    (∀ (line : List Char) (e : LineErr) (rest : List (List Char))
        (sats : Registry), processLine line = LineResult.err e →
        processLines (line :: rest) sats = processLines rest sats) ∧
    (∀ (line : List Char) (rest : List (List Char)) (sats : Registry),
        processLine line = LineResult.panic →
        processLines (line :: rest) sats = none) ∧
    processLine lineBadHex = LineResult.panic ∧
    processLine lineBadSumHex = LineResult.panic := by
  refine ⟨?_, ?_, by decide, by decide⟩
  · intro line e rest sats h
    simp only [processLines, h]
  · intro line rest sats h
    simp only [processLines, h]

/-- Witness for C1's amended statement: a checksum-mismatch line is skipped
while a bad-hex line aborts. -/
theorem C1_per_line_error_recovery_witness :
    processLines [lineBadSum, lineA] [] = processLines [lineA] [] ∧
    processLines [lineBadHex, lineA] [] = none :=
  ⟨C1_per_line_error_recovery.1 lineBadSum LineErr.checksumFailed [lineA] []
      (by decide),
   C1_per_line_error_recovery.2.1 lineBadHex [lineA] [] (by decide)⟩

/-! ### C6 -/

/-- C6: an almanac record with declared length other than 40 (in particular
64) fails with the incorrect-length error before any byte extraction, an
ephemeris record with declared length other than 64 likewise; only records
passing the check have fields extracted. -/
theorem C6_incorrect_length_gate (satid : Nat) (len : Int) (bytes : List Nat)
    (sat : SatRec) :
    (len ≠ 40 → decodeRecord RecType.almanac satid len bytes =
        LineResult.err LineErr.incorrectLength) ∧
    (len ≠ 64 → decodeRecord RecType.ephemeris satid len bytes =
        LineResult.err LineErr.incorrectLength) ∧
    (decodeRecord RecType.almanac satid len bytes = LineResult.ok sat →
        len = 40) ∧
    (decodeRecord RecType.ephemeris satid len bytes = LineResult.ok sat →
        len = 64) := by
  refine ⟨?_, ?_, ?_, ?_⟩
  · intro h
    simp [decodeRecord, h]
  · intro h
    simp [decodeRecord, h]
  · intro h
    by_contra hne
    simp [decodeRecord, hne] at h
  · intro h
    by_contra hne
    simp [decodeRecord, hne] at h

/-- Witness for C6: an almanac with declared length 64 and an ephemeris with
declared length 40 both fail with the incorrect-length error. -/
theorem C6_incorrect_length_gate_witness :
    decodeRecord RecType.almanac 5 64 [] =
      LineResult.err LineErr.incorrectLength ∧
    decodeRecord RecType.ephemeris 5 40 [] =
      LineResult.err LineErr.incorrectLength :=
  ⟨(C6_incorrect_length_gate 5 64 [] SatRec.dflt).1 (by decide),
   (C6_incorrect_length_gate 5 40 [] SatRec.dflt).2.1 (by decide)⟩

/-! ### C7 -/

/-- Almanac-shaped record helper for stating decode results. -/
def almRec (id wk t : Nat) : SatRec :=
  { SatRec.dflt with
    rec_type := RecType.almanac, satid := id, week := wk, toa := t }

/-- Ephemeris-shaped record helper for stating decode results. -/
def ephRec (id wk te tc : Nat) : SatRec :=
  { SatRec.dflt with
    rec_type := RecType.ephemeris, satid := id, week := wk, toe := te,
    toc := tc }

/-- C7: the decoded record's satellite id comes from the outer parsed id for
GPS and GLONASS ephemeris, but from the inner payload bytes for almanac
records (byte0 for GPS/GLONASS, byte1<<8 + byte0 for Galileo). -/
theorem C7_satid_outer_vs_inner (satid : Nat) (b0 b1 b2 b3 b4 b5 : Nat)
    (rest : List Nat) (hb1 : b1 < 256) :
    (satid ≤ 32 → ∃ sat,
        decodeRecord RecType.almanac satid 40 (b0 :: b1 :: b2 :: b3 :: rest) =
          LineResult.ok sat ∧ sat.satid = b0) ∧
    (33 ≤ satid → satid ≤ 96 → ∃ sat,
        decodeRecord RecType.almanac satid 40 (b0 :: b1 :: b2 :: b3 :: rest) =
          LineResult.ok sat ∧ sat.satid = b0) ∧
    (301 ≤ satid → satid ≤ 336 → ∃ sat,
        decodeRecord RecType.almanac satid 40
            (b0 :: b1 :: b2 :: b3 :: b4 :: b5 :: rest) =
          LineResult.ok sat ∧ sat.satid = b1 * 256 + b0) ∧
    (satid ≤ 32 → ∃ sat,
        decodeRecord RecType.ephemeris satid 64
            (b0 :: b1 :: b2 :: b3 :: b4 :: b5 :: rest) =
          LineResult.ok sat ∧ sat.satid = satid) ∧
    (33 ≤ satid → satid ≤ 96 → ∃ sat,
        decodeRecord RecType.ephemeris satid 64
            (b0 :: b1 :: b2 :: b3 :: b4 :: rest) =
          LineResult.ok sat ∧ sat.satid = satid) := by
  refine ⟨?_, ?_, ?_, ?_, ?_⟩
  · intro h
    refine ⟨almRec b0 (shlU16 b2 8 + b1) b3, ?_, rfl⟩
    simp [decodeRecord, fill_gps_almanac, almRec, h]
  · intro h1 h2
    have hno : ¬ satid ≤ 32 := by omega
    refine ⟨almRec b0 (shlU16 b2 8 + b1) b3, ?_, rfl⟩
    simp [decodeRecord, fill_glonass_alamanc, almRec, hno, h1, h2]
  · intro h1 h2
    have hno : ¬ satid ≤ 32 := by omega
    have hno2 : ¬ (33 ≤ satid ∧ satid ≤ 96) := by omega
    refine ⟨almRec (shlU16 b1 8 + b0) (shlU16 b4 8 + b3) b5, ?_, ?_⟩
    · simp [decodeRecord, fill_galileo_almanac, almRec, hno, hno2, h1, h2]
    · simp only [almRec, shlU16]
      norm_num
      omega
  · intro h
    refine ⟨ephRec satid (shlU16 b1 8 + b0) (shlU16 b3 8 + b2)
      (shlU16 b5 8 + b4), ?_, rfl⟩
    simp [decodeRecord, fill_gps_ephemeris, ephRec, h]
  · intro h1 h2
    have hno : ¬ satid ≤ 32 := by omega
    refine ⟨ephRec satid (shlU16 b1 8 + b0)
      (shlU32 b3 12 + shlU32 b2 4 + b4) 0, ?_, rfl⟩
    simp [decodeRecord, fill_glonass_ephemeris, ephRec, SatRec.dflt, hno, h1, h2]

/-- Witness for C7 at each constellation/kind branch with payload bytes
9, 1, 0, 0, 0, 0. -/
theorem C7_satid_outer_vs_inner_witness :
    (∃ sat, decodeRecord RecType.almanac 5 40 [9, 1, 0, 0] =
        LineResult.ok sat ∧ sat.satid = 9) ∧
    (∃ sat, decodeRecord RecType.almanac 40 40 [9, 1, 0, 0] =
        LineResult.ok sat ∧ sat.satid = 9) ∧
    (∃ sat, decodeRecord RecType.almanac 310 40 [9, 1, 0, 0, 0, 0] =
        LineResult.ok sat ∧ sat.satid = 1 * 256 + 9) ∧
    (∃ sat, decodeRecord RecType.ephemeris 5 64 [9, 1, 0, 0, 0, 0] =
        LineResult.ok sat ∧ sat.satid = 5) ∧
    (∃ sat, decodeRecord RecType.ephemeris 40 64 [9, 1, 0, 0, 0] =
        LineResult.ok sat ∧ sat.satid = 40) :=
  ⟨(C7_satid_outer_vs_inner 5 9 1 0 0 0 0 [] (by decide)).1 (by decide),
   (C7_satid_outer_vs_inner 40 9 1 0 0 0 0 [] (by decide)).2.1 (by decide)
     (by decide),
   (C7_satid_outer_vs_inner 310 9 1 0 0 0 0 [] (by decide)).2.2.1 (by decide)
     (by decide),
   (C7_satid_outer_vs_inner 5 9 1 0 0 0 0 [] (by decide)).2.2.2.1 (by decide),
   (C7_satid_outer_vs_inner 40 9 1 0 0 0 0 [] (by decide)).2.2.2.2 (by decide)
     (by decide)⟩

/-! ### C8 -/

/-- C8: GPS ephemeris decode yields week = byte1<<8 + byte0,
toe = byte3<<8 + byte2, toc = byte5<<8 + byte4 exactly, and the remainder is
`bytes[5..]` — starting one byte before the end of the `toc` field (bytes
4–5), overlapping it — without affecting the three scalar fields. -/
theorem C8_gps_ephemeris_layout (b0 b1 b2 b3 b4 b5 : Nat) (rest : List Nat)
    (h1 : b1 < 256) (h3 : b3 < 256) (h5 : b5 < 256) :
    fill_gps_ephemeris (b0 :: b1 :: b2 :: b3 :: b4 :: b5 :: rest) =
      some { week := b1 * 256 + b0, toe := b3 * 256 + b2,
             toc := b5 * 256 + b4,
             rem := (b0 :: b1 :: b2 :: b3 :: b4 :: b5 :: rest).drop 5 } ∧
    (b0 :: b1 :: b2 :: b3 :: b4 :: b5 :: rest).drop 5 = b5 :: rest := by
  refine ⟨?_, rfl⟩
  simp only [fill_gps_ephemeris, shlU16, List.drop, Option.some.injEq,
    GpsEphemeris.mk.injEq]
  norm_num
  refine ⟨?_, ?_, ?_⟩ <;> omega

/-- Witness for C8 at the concrete payload 1, 2, 3, 4, 5, 6, 7. -/
theorem C8_gps_ephemeris_layout_witness :
    fill_gps_ephemeris [1, 2, 3, 4, 5, 6, 7] =
      some { week := 2 * 256 + 1, toe := 4 * 256 + 3, toc := 6 * 256 + 5,
             rem := ([1, 2, 3, 4, 5, 6, 7] : List Nat).drop 5 } ∧
    ([1, 2, 3, 4, 5, 6, 7] : List Nat).drop 5 = 6 :: [7] :=
  C8_gps_ephemeris_layout 1 2 3 4 5 6 [7] (by decide) (by decide) (by decide)

/-! ### C2 -/

/-- C2: on a line that tokenizes (4 comma fields, known keyword, parsed id
and length, payload and checksum split on '*', both valid hex), the
validator XOR-folds the bytes of the characters strictly between the leading
'$' and the first '*'; the line is accepted only if this value equals the
first decoded checksum byte, and on mismatch it fails with the checksum
error and is never offered to the registry. -/
theorem C2_checksum_gate (line f0 f1 f2 f3 payload sumHex mid : List Char)
    (restStar : List (List Char)) (satid : Nat) (len : Int) (s : Nat)
    (srest bytes : List Nat)
    (hsplit : splitOn ',' line = [f0, f1, f2, f3])
    (hkw : f0 = almanacKw ∨ f0 = ephemKw)
    (hid : parseU16 f1 = some satid)
    (hlen : parseI32 f2 = some len)
    (hrec : splitOn '*' f3 = [payload, sumHex])
    (hsum : hexDecode sumHex = some (s :: srest))
    (hbytes : hexDecode payload = some bytes)
    (hline : splitOn '*' line = ('$' :: mid) :: restStar) :
    (xorFold (strBytes mid) ≠ s →
       processLine line = LineResult.err LineErr.checksumFailed ∧
       ∀ (sats : Registry) (rest : List (List Char)),
         processLines (line :: rest) sats = processLines rest sats) ∧
    (∀ sat : SatRec, processLine line = LineResult.ok sat →
       xorFold (strBytes mid) = s) := by
  by_cases hx : xorFold (strBytes mid) = s
  · exact ⟨fun hne => absurd hx hne, fun sat _ => hx⟩
  · have hne2 : ephemKw ≠ almanacKw := by decide
    have herr : processLine line = LineResult.err LineErr.checksumFailed := by
      rcases hkw with rfl | rfl <;>
        simp [processLine, hsplit, hid, hlen, hrec, hsum, hbytes, hline,
          check_checksum, hx, hne2, List.get?]
    refine ⟨fun _ => ⟨herr, fun sats rest => ?_⟩, fun sat hok => ?_⟩
    · simp only [processLines, herr]
    · rw [herr] at hok
      exact LineResult.noConfusion hok

/-- Witness for C2 at `lineBadSum` (flipped checksum byte): the line fails
with the checksum error and is skipped, never reaching the registry. -/
theorem C2_checksum_gate_witness :
    processLine lineBadSum = LineResult.err LineErr.checksumFailed ∧
    processLines [lineBadSum, lineA] [] = processLines [lineA] [] := by
  have h := (C2_checksum_gate lineBadSum "$PSTMALMANAC".data "5".data
    "40".data
    "05640000000000000000000000000000000000000000000000000000000000000000000000000000*4E".data
    "05640000000000000000000000000000000000000000000000000000000000000000000000000000".data
    "4E".data
    "PSTMALMANAC,5,40,05640000000000000000000000000000000000000000000000000000000000000000000000000000".data
    ["4E".data] 5 40 78 [] (5 :: 100 :: List.replicate 38 0)
    (by decide) (Or.inl rfl) (by decide) (by decide) (by decide) (by decide)
    (by decide) (by decide)).1 (by decide)
  exact ⟨h.1, h.2 [] [lineA]⟩
